import Mathlib

/-!
Verification of the payments / webhook reconciliation core of a NestJS +
Stripe + Prisma starter kit.

The development shallowly embeds the relevant TypeScript sources:
  * `prisma/schema.prisma`          — the persisted data model (rows as
    structures, tables as lists, timestamps as epoch milliseconds `Int`);
  * `src/payments/webhook.service.ts` — `WebhookService`: the idempotency
    ledger (`handleWebhookEvent`), the event router (`processEvent`) and the
    per-entity reconcilers;
  * `src/payments/payments.service.ts` — `PaymentsService`: locally
    initiated actions (checkout, portal, cancel / reactivate / change
    subscription) and the entitlement oracle `hasActiveSubscription`;
  * `src/payments/payments.controller.ts` — the webhook HTTP endpoint.

Modelling conventions:
  * Prisma tables are lists of rows; `findUnique` / `findFirst` become
    `List.find?`, `updateMany` a guarded map, `upsert` an update-in-place or
    append, `delete` a fallible removal (Prisma throws when no row matches).
  * Every Prisma *write* is a suspension point that may fail (connection
    loss, constraint violation, ...).  Failures are injected by a `Faults`
    set of operation labels: a write whose label is in the set raises.
    Reads are modelled as infallible — no claim depends on read failures.
  * Exceptions do not roll anything back (there are no transactions in the
    source), so fallible computations return `DB × Option Err`: the state
    reached so far together with the exception, if one was raised.
  * The external Stripe client is an oracle (`StripeEnv`) of fallible
    functions, and `new Date()` is an explicit `now : Int` parameter.
  * `handleWebhookEvent` additionally returns a ghost `Nat` counting how
    many times the event router `processEvent` was entered, so that
    "the reconciler ran a second time" is directly observable.
-/

/-- Local subscription statuses, in the declaration order of the Prisma enum
`SubscriptionStatus` (so `INCOMPLETE` is the first member). -/
inductive SubscriptionStatus
  | INCOMPLETE
  | INCOMPLETE_EXPIRED
  | TRIALING
  | ACTIVE
  | PAST_DUE
  | CANCELED
  | UNPAID
  | PAUSED
deriving DecidableEq, Repr

/-- The first member of the local status enum, as declared in the schema. -/
def SubscriptionStatus.firstMember : SubscriptionStatus := .INCOMPLETE

/-- Prisma enum `PriceType`. -/
inductive PriceType
  | ONE_TIME
  | RECURRING
deriving DecidableEq, Repr

/-- Prisma enum `PriceInterval`. -/
inductive PriceInterval
  | DAY
  | WEEK
  | MONTH
  | YEAR
deriving DecidableEq, Repr

/-- Row of the `users` table (the fields the payments core touches). -/
structure User where
  id : String
  email : String
  firstName : Option String
  lastName : Option String
  stripeCustomerId : Option String
  updatedAt : Int
deriving DecidableEq, Repr

/-- Row of the `products` table. -/
structure Product where
  id : String
  stripeProductId : String
  name : String
  description : Option String
  metadata : List (String × String)
  active : Bool
  updatedAt : Int
deriving DecidableEq, Repr

/-- Row of the `prices` table. -/
structure Price where
  id : String
  stripePriceId : String
  productId : String
  nickname : Option String
  currency : String
  type : PriceType
  unitAmount : Option Int
  interval : Option PriceInterval
  intervalCount : Option Int
  metadata : List (String × String)
  active : Bool
  updatedAt : Int
deriving DecidableEq, Repr

/-- Row of the `subscriptions` table. -/
structure Subscription where
  id : String
  stripeSubscriptionId : String
  userId : String
  priceId : String
  status : SubscriptionStatus
  cancelAtPeriodEnd : Bool
  cancelAt : Option Int
  canceledAt : Option Int
  currentPeriodStart : Int
  currentPeriodEnd : Int
  endedAt : Option Int
  trialStart : Option Int
  trialEnd : Option Int
  metadata : List (String × String)
  updatedAt : Int
deriving DecidableEq, Repr

/-- Row of the `payment_methods` table. -/
structure PaymentMethod where
  stripePaymentMethodId : String
  userId : String
  type : String
  brand : Option String
  last4 : Option String
  expiryMonth : Option Int
  expiryYear : Option Int
  updatedAt : Int
deriving DecidableEq, Repr

/-- Stripe event payload fragments, typed per entity family (§4.1 of the
payload shapes actually read by the reconcilers). -/
structure StripeRecurring where
  interval : String
  interval_count : Int
deriving DecidableEq, Repr

/-- Payload `Stripe.Price` — the fields `handlePriceUpdated` reads. -/
structure StripePrice where
  id : String
  product : String
  nickname : Option String
  currency : String
  type : String
  unit_amount : Option Int
  recurring : Option StripeRecurring
  metadata : List (String × String)
  active : Bool
deriving DecidableEq, Repr

/-- Payload `Stripe.Product` — the fields `handleProductUpdated` reads. -/
structure StripeProduct where
  id : String
  name : String
  description : Option String
  metadata : List (String × String)
  active : Bool
deriving DecidableEq, Repr

/-- Payload `Stripe.Subscription` item: the first line item's price id is read. -/
structure StripeSubItem where
  priceId : String
deriving DecidableEq, Repr

/-- Payload `Stripe.Subscription` — the fields `handleSubscriptionUpdated` reads.
Timestamps are epoch seconds, as delivered by the processor. -/
structure StripeSubscription where
  id : String
  customer : String
  items : List StripeSubItem
  status : String
  cancel_at_period_end : Bool
  cancel_at : Option Int
  canceled_at : Option Int
  current_period_start : Int
  current_period_end : Int
  ended_at : Option Int
  trial_start : Option Int
  trial_end : Option Int
  metadata : List (String × String)
deriving DecidableEq, Repr

/-- Payload `Stripe.Invoice` — only the attached subscription id is read. -/
structure StripeInvoice where
  subscription : Option String
deriving DecidableEq, Repr

/-- Payload `Stripe.Customer` — the fields the customer reconcilers read. -/
structure StripeCustomer where
  id : String
  email : Option String
deriving DecidableEq, Repr

/-- Card display data of a `Stripe.PaymentMethod`. -/
structure StripeCard where
  brand : String
  last4 : String
  exp_month : Int
  exp_year : Int
deriving DecidableEq, Repr

/-- Payload `Stripe.PaymentMethod` — the fields the payment-method reconcilers read. -/
structure StripePaymentMethod where
  id : String
  customer : Option String
  type : String
  card : Option StripeCard
deriving DecidableEq, Repr

/-- Typed event payload (`event.data.object`), closed per entity family. -/
inductive EventData
  | subscription (s : StripeSubscription)
  | invoice (i : StripeInvoice)
  | customer (c : StripeCustomer)
  | product (p : StripeProduct)
  | price (p : StripePrice)
  | paymentMethod (pm : StripePaymentMethod)
  | other
deriving DecidableEq, Repr

/-- Payload `Stripe.Event`: id, type tag and payload. -/
structure StripeEvent where
  id : String
  type : String
  data : EventData
deriving DecidableEq, Repr

/-- Row of the `webhook_events` ledger table. -/
structure WebhookEventRecord where
  stripeEventId : String
  type : String
  data : EventData
  processed : Bool
  processedAt : Option Int
deriving DecidableEq, Repr

/-- The persisted state: the five entity tables plus the ledger. -/
structure DB where
  users : List User
  products : List Product
  prices : List Price
  subscriptions : List Subscription
  paymentMethods : List PaymentMethod
  webhookEvents : List WebhookEventRecord
deriving DecidableEq, Repr

/-- The empty database. -/
def DB.empty : DB := ⟨[], [], [], [], [], []⟩

deriving instance DecidableEq for Except

/-- Errors: NestJS exception kinds plus injected storage faults and errors
reported by the external Stripe client. -/
inductive Err
  | notFound (msg : String)
  | badRequest (msg : String)
  | stripeError (msg : String)
  | dbFault (label : String)
deriving DecidableEq, Repr

/-- Fault-injection oracle: labels of Prisma write operations that raise. -/
abbrev Faults := List String

/-- A Prisma write: applies `f` unless the operation's label is faulted. -/
def dbWrite (fs : Faults) (label : String) (f : DB → DB) (db : DB) :
    DB × Option Err :=
  if fs.contains label then (db, some (.dbFault label))
  else (f db, none)

/-- Source `WebhookService.mapSubscriptionStatus`, verbatim: the processor's
status vocabulary to the closed local set, defaulting to `INCOMPLETE`. -/
def mapSubscriptionStatus (stripeStatus : String) : SubscriptionStatus :=
  if stripeStatus == "incomplete" then .INCOMPLETE
  else if stripeStatus == "incomplete_expired" then .INCOMPLETE_EXPIRED
  else if stripeStatus == "trialing" then .TRIALING
  else if stripeStatus == "active" then .ACTIVE
  else if stripeStatus == "past_due" then .PAST_DUE
  else if stripeStatus == "canceled" then .CANCELED
  else if stripeStatus == "unpaid" then .UNPAID
  else if stripeStatus == "paused" then .PAUSED
  else .INCOMPLETE

/-- Prisma `upsert` keyed by `hit`: update the matching row in place,
or append the `mk` row when none matches.  (`hit` is a unique key in every
use below, so at most one row matches.) -/
def upsertBy (hit : α → Bool) (upd : α → α) (mk : α) (l : List α) : List α :=
  if l.any hit then l.map (fun x => if hit x then upd x else x) else l ++ [mk]

/-- Prisma `updateMany`: update every matching row, never raising. -/
def updateManyBy (hit : α → Bool) (upd : α → α) (l : List α) : List α :=
  l.map (fun x => if hit x then upd x else x)

/-- Surrogate primary keys are database-generated (cuid); modelled
deterministically from the unique external id the row is created for. -/
def genId (stripeId : String) : String := "local:" ++ stripeId

/-- Source `WebhookService.handleSubscriptionUpdated`: resolve customer and first
line item's price (skip + log when unresolved), translate the status, and
upsert keyed by the external subscription id.  The update branch leaves
`userId` / `priceId` untouched, exactly as in the source. -/
def handleSubscriptionUpdated (fs : Faults) (now : Int)
    (subscription : StripeSubscription) (db : DB) : DB × Option Err :=
  match db.users.find? (fun u => u.stripeCustomerId == some subscription.customer) with
  | none => (db, none)
  | some user =>
    match (subscription.items.head?).map (·.priceId) with
    | none => (db, none)
    | some stripePriceId =>
      match db.prices.find? (fun p => p.stripePriceId == stripePriceId) with
      | none => (db, none)
      | some price =>
        let status := mapSubscriptionStatus subscription.status
        dbWrite fs "subscription.upsert" (fun db =>
          let subs := upsertBy
              (fun s => s.stripeSubscriptionId == subscription.id)
              (fun s => { s with
                status := status
                cancelAtPeriodEnd := subscription.cancel_at_period_end
                cancelAt := subscription.cancel_at.map (· * 1000)
                canceledAt := subscription.canceled_at.map (· * 1000)
                currentPeriodStart := subscription.current_period_start * 1000
                currentPeriodEnd := subscription.current_period_end * 1000
                endedAt := subscription.ended_at.map (· * 1000)
                trialStart := subscription.trial_start.map (· * 1000)
                trialEnd := subscription.trial_end.map (· * 1000)
                metadata := subscription.metadata
                updatedAt := now })
              { id := genId subscription.id
                stripeSubscriptionId := subscription.id
                userId := user.id
                priceId := price.id
                status := status
                cancelAtPeriodEnd := subscription.cancel_at_period_end
                cancelAt := subscription.cancel_at.map (· * 1000)
                canceledAt := subscription.canceled_at.map (· * 1000)
                currentPeriodStart := subscription.current_period_start * 1000
                currentPeriodEnd := subscription.current_period_end * 1000
                endedAt := subscription.ended_at.map (· * 1000)
                trialStart := subscription.trial_start.map (· * 1000)
                trialEnd := subscription.trial_end.map (· * 1000)
                metadata := subscription.metadata
                updatedAt := now }
              db.subscriptions
          { db with subscriptions := subs }) db

/-- Source `WebhookService.handleSubscriptionDeleted`: force status `CANCELED` and
stamp `endedAt` on the matching row; the row is never deleted. -/
def handleSubscriptionDeleted (fs : Faults) (now : Int)
    (subscription : StripeSubscription) (db : DB) : DB × Option Err :=
  dbWrite fs "subscription.updateMany" (fun db =>
    let subs := updateManyBy
        (fun s => s.stripeSubscriptionId == subscription.id)
        (fun s => { s with status := .CANCELED, endedAt := some now, updatedAt := now })
        db.subscriptions
    { db with subscriptions := subs }) db

/-- Source `WebhookService.handleInvoicePaymentSucceeded`: promote the referenced
subscription to `ACTIVE` when it is known locally and not already active. -/
def handleInvoicePaymentSucceeded (fs : Faults) (now : Int)
    (invoice : StripeInvoice) (db : DB) : DB × Option Err :=
  match invoice.subscription with
  | none => (db, none)
  | some sid =>
    match db.subscriptions.find? (fun s => s.stripeSubscriptionId == sid) with
    | none => (db, none)
    | some subscription =>
      if subscription.status == SubscriptionStatus.ACTIVE then (db, none)
      else
        dbWrite fs "subscription.update" (fun db =>
          let subs := updateManyBy
              (fun s => s.id == subscription.id)
              (fun s => { s with status := .ACTIVE, updatedAt := now })
              db.subscriptions
          { db with subscriptions := subs }) db

/-- Source `WebhookService.handleInvoicePaymentFailed`: demote the referenced
subscription to `PAST_DUE`; a no-op when it is not known locally. -/
def handleInvoicePaymentFailed (fs : Faults) (now : Int)
    (invoice : StripeInvoice) (db : DB) : DB × Option Err :=
  match invoice.subscription with
  | none => (db, none)
  | some sid =>
    dbWrite fs "subscription.updateMany" (fun db =>
      let subs := updateManyBy
          (fun s => s.stripeSubscriptionId == sid)
          (fun s => { s with status := .PAST_DUE, updatedAt := now })
          db.subscriptions
      { db with subscriptions := subs }) db

/-- Source `WebhookService.handleCustomerCreated`: link the external customer id to
a user matched by email, only when that user has no linkage yet. -/
def handleCustomerCreated (fs : Faults) (now : Int)
    (customer : StripeCustomer) (db : DB) : DB × Option Err :=
  match customer.email with
  | none => (db, none)
  | some email =>
    dbWrite fs "user.updateMany" (fun db =>
      let us := updateManyBy
          (fun u => u.email == email && u.stripeCustomerId.isNone)
          (fun u => { u with stripeCustomerId := some customer.id, updatedAt := now })
          db.users
      { db with users := us }) db

/-- Source `WebhookService.handleCustomerUpdated`: touch the linked user rows. -/
def handleCustomerUpdated (fs : Faults) (now : Int)
    (customer : StripeCustomer) (db : DB) : DB × Option Err :=
  match customer.email with
  | none => (db, none)
  | some _ =>
    dbWrite fs "user.updateMany" (fun db =>
      let us := updateManyBy
          (fun u => u.stripeCustomerId == some customer.id)
          (fun u => { u with updatedAt := now })
          db.users
      { db with users := us }) db

/-- Source `WebhookService.handleProductUpdated`: field-for-field upsert keyed by
the external product id. -/
def handleProductUpdated (fs : Faults) (now : Int)
    (product : StripeProduct) (db : DB) : DB × Option Err :=
  dbWrite fs "product.upsert" (fun db =>
    let ps := upsertBy
        (fun p => p.stripeProductId == product.id)
        (fun p => { p with
          name := product.name
          description := product.description
          metadata := product.metadata
          active := product.active
          updatedAt := now })
        { id := genId product.id
          stripeProductId := product.id
          name := product.name
          description := product.description
          metadata := product.metadata
          active := product.active
          updatedAt := now }
        db.products
    { db with products := ps }) db

/-- Source `WebhookService.handleProductDeleted`: soft delete (`active := false`). -/
def handleProductDeleted (fs : Faults) (now : Int)
    (product : StripeProduct) (db : DB) : DB × Option Err :=
  dbWrite fs "product.updateMany" (fun db =>
    let ps := updateManyBy
        (fun p => p.stripeProductId == product.id)
        (fun p => { p with active := false, updatedAt := now })
        db.products
    { db with products := ps }) db

/-- Source `WebhookService.handlePriceUpdated`: resolve the parent product (skip +
log when unresolved), re-derive the recurrence pair only for recurring
prices, and upsert keyed by the external price id.  The update branch leaves
`productId` untouched, exactly as in the source. -/
def handlePriceUpdated (fs : Faults) (now : Int)
    (price : StripePrice) (db : DB) : DB × Option Err :=
  match db.products.find? (fun p => p.stripeProductId == price.product) with
  | none => (db, none)
  | some product =>
    let priceType := if price.type == "recurring" then PriceType.RECURRING else PriceType.ONE_TIME
    let interval : Option PriceInterval :=
      match price.recurring with
      | some r =>
        if r.interval == "day" then some .DAY
        else if r.interval == "week" then some .WEEK
        else if r.interval == "month" then some .MONTH
        else if r.interval == "year" then some .YEAR
        else none
      | none => none
    let intervalCount := price.recurring.map (·.interval_count)
    dbWrite fs "price.upsert" (fun db =>
      let ps := upsertBy
          (fun p => p.stripePriceId == price.id)
          (fun p => { p with
            nickname := price.nickname
            currency := price.currency
            type := priceType
            unitAmount := price.unit_amount
            interval := interval
            intervalCount := intervalCount
            metadata := price.metadata
            active := price.active
            updatedAt := now })
          { id := genId price.id
            stripePriceId := price.id
            productId := product.id
            nickname := price.nickname
            currency := price.currency
            type := priceType
            unitAmount := price.unit_amount
            interval := interval
            intervalCount := intervalCount
            metadata := price.metadata
            active := price.active
            updatedAt := now }
          db.prices
      { db with prices := ps }) db

/-- Source `WebhookService.handlePriceDeleted`: soft delete (`active := false`). -/
def handlePriceDeleted (fs : Faults) (now : Int)
    (price : StripePrice) (db : DB) : DB × Option Err :=
  dbWrite fs "price.updateMany" (fun db =>
    let ps := updateManyBy
        (fun p => p.stripePriceId == price.id)
        (fun p => { p with active := false, updatedAt := now })
        db.prices
    { db with prices := ps }) db

/-- Source `WebhookService.handlePaymentMethodAttached`: resolve the owning user
(skip when unknown), extract card display data when present, and upsert
keyed by the external payment-method id. -/
def handlePaymentMethodAttached (fs : Faults) (now : Int)
    (paymentMethod : StripePaymentMethod) (db : DB) : DB × Option Err :=
  match paymentMethod.customer with
  | none => (db, none)
  | some cust =>
    match db.users.find? (fun u => u.stripeCustomerId == some cust) with
    | none => (db, none)
    | some user =>
      let brand := paymentMethod.card.map (·.brand)
      let last4 := paymentMethod.card.map (·.last4)
      let expiryMonth := paymentMethod.card.map (·.exp_month)
      let expiryYear := paymentMethod.card.map (·.exp_year)
      dbWrite fs "paymentMethod.upsert" (fun db =>
        let ms := upsertBy
            (fun m => m.stripePaymentMethodId == paymentMethod.id)
            (fun m => { m with
              type := paymentMethod.type
              brand := brand
              last4 := last4
              expiryMonth := expiryMonth
              expiryYear := expiryYear
              updatedAt := now })
            { stripePaymentMethodId := paymentMethod.id
              userId := user.id
              type := paymentMethod.type
              brand := brand
              last4 := last4
              expiryMonth := expiryMonth
              expiryYear := expiryYear
              updatedAt := now }
            db.paymentMethods
        { db with paymentMethods := ms }) db

/-- Source `WebhookService.handlePaymentMethodDetached`:
`prisma.paymentMethod.delete(...).catch(() => {})` — a hard delete whose
failure is swallowed, whether the row was already absent (Prisma raises
P2025 on a delete with no matching row) or the write itself faulted. -/
def handlePaymentMethodDetached (fs : Faults)
    (paymentMethod : StripePaymentMethod) (db : DB) : DB × Option Err :=
  let deleted : DB × Option Err :=
    if fs.contains "paymentMethod.delete" then
      (db, some (Err.dbFault "paymentMethod.delete"))
    else if db.paymentMethods.any (fun m => m.stripePaymentMethodId == paymentMethod.id) then
      ({ db with paymentMethods :=
          db.paymentMethods.filter (fun m => !(m.stripePaymentMethodId == paymentMethod.id)) },
       none)
    else (db, some (Err.notFound "P2025"))
  (deleted.1, none)

/-- The reconciler selected by `WebhookService.processEvent`'s dispatch on
the event's type tag (a type absent from the table, or a payload whose shape
does not belong to the type, selects the no-op). -/
inductive Route
  | subscriptionUpsert (s : StripeSubscription)
  | subscriptionDelete (s : StripeSubscription)
  | invoiceSucceeded (i : StripeInvoice)
  | invoiceFailed (i : StripeInvoice)
  | customerCreated (c : StripeCustomer)
  | customerUpdated (c : StripeCustomer)
  | productUpsert (p : StripeProduct)
  | productDelete (p : StripeProduct)
  | priceUpsert (p : StripePrice)
  | priceDelete (p : StripePrice)
  | paymentMethodAttach (m : StripePaymentMethod)
  | paymentMethodDetach (m : StripePaymentMethod)
  | skip
deriving DecidableEq, Repr

/-- The dispatch table of `WebhookService.processEvent`, case for case. -/
def route (ev : StripeEvent) : Route :=
  if ev.type == "customer.subscription.created"
      || ev.type == "customer.subscription.updated" then
    match ev.data with
    | .subscription s => .subscriptionUpsert s
    | _ => .skip
  else if ev.type == "customer.subscription.deleted" then
    match ev.data with
    | .subscription s => .subscriptionDelete s
    | _ => .skip
  else if ev.type == "invoice.payment_succeeded" then
    match ev.data with
    | .invoice i => .invoiceSucceeded i
    | _ => .skip
  else if ev.type == "invoice.payment_failed" then
    match ev.data with
    | .invoice i => .invoiceFailed i
    | _ => .skip
  else if ev.type == "customer.created" then
    match ev.data with
    | .customer c => .customerCreated c
    | _ => .skip
  else if ev.type == "customer.updated" then
    match ev.data with
    | .customer c => .customerUpdated c
    | _ => .skip
  else if ev.type == "product.created" || ev.type == "product.updated" then
    match ev.data with
    | .product p => .productUpsert p
    | _ => .skip
  else if ev.type == "product.deleted" then
    match ev.data with
    | .product p => .productDelete p
    | _ => .skip
  else if ev.type == "price.created" || ev.type == "price.updated" then
    match ev.data with
    | .price p => .priceUpsert p
    | _ => .skip
  else if ev.type == "price.deleted" then
    match ev.data with
    | .price p => .priceDelete p
    | _ => .skip
  else if ev.type == "payment_method.attached" then
    match ev.data with
    | .paymentMethod m => .paymentMethodAttach m
    | _ => .skip
  else if ev.type == "payment_method.detached" then
    match ev.data with
    | .paymentMethod m => .paymentMethodDetach m
    | _ => .skip
  else .skip

/-- Run the selected reconciler (`skip` is the logged no-op default). -/
def runRoute (fs : Faults) (now : Int) : Route → DB → DB × Option Err
  | .subscriptionUpsert s, db => handleSubscriptionUpdated fs now s db
  | .subscriptionDelete s, db => handleSubscriptionDeleted fs now s db
  | .invoiceSucceeded i, db => handleInvoicePaymentSucceeded fs now i db
  | .invoiceFailed i, db => handleInvoicePaymentFailed fs now i db
  | .customerCreated c, db => handleCustomerCreated fs now c db
  | .customerUpdated c, db => handleCustomerUpdated fs now c db
  | .productUpsert p, db => handleProductUpdated fs now p db
  | .productDelete p, db => handleProductDeleted fs now p db
  | .priceUpsert p, db => handlePriceUpdated fs now p db
  | .priceDelete p, db => handlePriceDeleted fs now p db
  | .paymentMethodAttach m, db => handlePaymentMethodAttached fs now m db
  | .paymentMethodDetach m, db => handlePaymentMethodDetached fs m db
  | .skip, db => (db, none)

/-- Source `WebhookService.processEvent`: the typed event router — dispatch on the
type tag, then run the selected reconciler. -/
def processEvent (fs : Faults) (now : Int) (ev : StripeEvent) (db : DB) :
    DB × Option Err :=
  runRoute fs now (route ev) db

/-- The ledger upsert of `handleWebhookEvent`: record the raw event; the
update branch refreshes type and payload but never touches `processed`. -/
def webhookEventUpsert (ev : StripeEvent) (db : DB) : DB :=
  let recs := upsertBy
      (fun r => r.stripeEventId == ev.id)
      (fun r => { r with type := ev.type, data := ev.data })
      { stripeEventId := ev.id
        type := ev.type
        data := ev.data
        processed := false
        processedAt := none }
      db.webhookEvents
  { db with webhookEvents := recs }

/-- The final ledger update of `handleWebhookEvent`: mark processed. -/
def markProcessed (now : Int) (eventId : String) (db : DB) : DB :=
  let recs := updateManyBy
      (fun r => r.stripeEventId == eventId)
      (fun r => { r with processed := true, processedAt := some now })
      db.webhookEvents
  { db with webhookEvents := recs }

/-- Source `WebhookService.handleWebhookEvent`: read the ledger, return early when
the event is already processed, otherwise upsert the ledger row, run the
router, and mark processed; any exception propagates (the catch in the
source only logs and rethrows).  The `Nat` component is a ghost counter of
router entries. -/
def handleWebhookEvent (fs : Faults) (now : Int) (ev : StripeEvent) (db : DB) :
    DB × Nat × Option Err :=
  let existingEvent := db.webhookEvents.find? (fun r => r.stripeEventId == ev.id)
  if (existingEvent.map (·.processed)).getD false then (db, 0, none)
  else
    match dbWrite fs "webhookEvent.upsert" (webhookEventUpsert ev) db with
    | (db1, some e) => (db1, 0, some e)
    | (db1, none) =>
      match processEvent fs now ev db1 with
      | (db2, some e) => (db2, 1, some e)
      | (db2, none) =>
        match dbWrite fs "webhookEvent.update" (markProcessed now ev.id) db2 with
        | (db3, some e) => (db3, 1, some e)
        | (db3, none) => (db3, 1, none)

/-- Source `PaymentsService.hasActiveSubscription`: a subscription of the user
with status in `{ACTIVE, TRIALING}` and `currentPeriodEnd > now`. -/
def hasActiveSubscription (db : DB) (userId : String) (now : Int) : Bool :=
  (db.subscriptions.find? fun s =>
    s.userId == userId
      && (s.status == SubscriptionStatus.ACTIVE
            || s.status == SubscriptionStatus.TRIALING)
      && decide (now < s.currentPeriodEnd)).isSome

/-- Session info returned by `stripe.checkout.sessions.create`. -/
structure CheckoutSessionInfo where
  id : String
  url : Option String
deriving DecidableEq, Repr

/-- Session info returned by `stripe.billingPortal.sessions.create`. -/
structure PortalSessionInfo where
  url : String
deriving DecidableEq, Repr

/-- The fields of the `Stripe.Subscription` returned by a subscription
mutation that `PaymentsService` reads back. -/
structure StripeSubResult where
  cancel_at_period_end : Bool
  cancel_at : Option Int
deriving DecidableEq, Repr

/-- Parameters of `StripeService.createCheckoutSession`. -/
structure CheckoutParams where
  priceId : String
  customerId : String
  successUrl : String
  cancelUrl : String
  trialPeriodDays : Option Int
  metadata : List (String × String)
deriving DecidableEq, Repr

/-- The external Stripe client (`StripeService`) as an oracle of fallible
calls; network or API failures surface as `Err` values. -/
structure StripeEnv where
  createCustomer : String → Option String → Except Err String
  createCheckoutSession : CheckoutParams → Except Err CheckoutSessionInfo
  createPortalSession : String → String → Except Err PortalSessionInfo
  cancelSubscription : String → Bool → Except Err StripeSubResult
  reactivateSubscription : String → Except Err StripeSubResult
  updateSubscription : String → String → Except Err StripeSubResult

/-- Dto `CreateCheckoutSessionDto`. -/
structure CreateCheckoutSessionDto where
  priceId : String
  successUrl : String
  cancelUrl : String
  trialPeriodDays : Option Int
  metadata : List (String × String)
deriving DecidableEq, Repr

/-- JavaScript template-literal interpolation of a nullable string. -/
def tsInterp (o : Option String) : String := o.getD "null"

/-- The customer display name `PaymentsService.createCheckoutSession`
passes along: `` `${user.firstName} ${user.lastName}`.trim() || undefined ``. -/
def checkoutName (u : User) : Option String :=
  let s := (tsInterp u.firstName ++ " " ++ tsInterp u.lastName).trim
  if s == "" then none else some s

/-- Source `PaymentsService.createCheckoutSession`: look up the user, create and
persist a Stripe customer linkage when absent, validate the price, then ask
Stripe for a checkout session.  Note the linkage write commits before the
price validation can fail. -/
def createCheckoutSession (fs : Faults) (stripe : StripeEnv) (now : Int)
    (userId : String) (dto : CreateCheckoutSessionDto) (db : DB) :
    DB × Except Err CheckoutSessionInfo :=
  match db.users.find? (fun u => u.id == userId) with
  | none => (db, .error (.notFound "User not found"))
  | some user =>
    let ensured : DB × Except Err String :=
      match user.stripeCustomerId with
      | some cid => (db, .ok cid)
      | none =>
        match stripe.createCustomer user.email (checkoutName user) with
        | .error e => (db, .error e)
        | .ok cid =>
          match dbWrite fs "user.update" (fun db =>
            let us := updateManyBy (fun u => u.id == userId)
                (fun u => { u with stripeCustomerId := some cid, updatedAt := now })
                db.users
            { db with users := us }) db with
          | (db1, some e) => (db1, .error e)
          | (db1, none) => (db1, .ok cid)
    match ensured with
    | (db1, .error e) => (db1, .error e)
    | (db1, .ok cid) =>
      match db1.prices.find? (fun p => p.stripePriceId == dto.priceId) with
      | none => (db1, .error (.badRequest "Invalid or inactive price"))
      | some price =>
        if !price.active then (db1, .error (.badRequest "Invalid or inactive price"))
        else
          match stripe.createCheckoutSession
              { priceId := dto.priceId
                customerId := cid
                successUrl := dto.successUrl
                cancelUrl := dto.cancelUrl
                trialPeriodDays := dto.trialPeriodDays
                metadata := dto.metadata ++ [("userId", userId), ("priceId", price.id)] } with
          | .error e => (db1, .error e)
          | .ok s => (db1, .ok s)

/-- Source `PaymentsService.createPortalSession`: requires an existing customer
linkage; performs no local write. -/
def createPortalSession (stripe : StripeEnv) (appUrl : String)
    (userId : String) (db : DB) : DB × Except Err PortalSessionInfo :=
  match db.users.find? (fun u => u.id == userId) with
  | none => (db, .error (.notFound "User or Stripe customer not found"))
  | some user =>
    match user.stripeCustomerId with
    | none => (db, .error (.notFound "User or Stripe customer not found"))
    | some cid =>
      match stripe.createPortalSession cid (appUrl ++ "/dashboard") with
      | .error e => (db, .error e)
      | .ok s => (db, .ok s)

/-- Result of `PaymentsService.cancelSubscription`. -/
structure CancelResult where
  success : Bool
  immediate : Bool
deriving DecidableEq, Repr

/-- Source `PaymentsService.cancelSubscription`: find the caller's subscription,
cancel at Stripe (immediately or at period end), then apply the optimistic
local update. -/
def cancelSubscription (fs : Faults) (stripe : StripeEnv) (now : Int)
    (userId subscriptionId : String) (immediate : Bool) (db : DB) :
    DB × Except Err CancelResult :=
  match db.subscriptions.find? (fun s => s.id == subscriptionId && s.userId == userId) with
  | none => (db, .error (.notFound "Subscription not found"))
  | some subscription =>
    match stripe.cancelSubscription subscription.stripeSubscriptionId immediate with
    | .error e => (db, .error e)
    | .ok upd =>
      match dbWrite fs "subscription.update" (fun db =>
        let subs := updateManyBy (fun s => s.id == subscriptionId)
            (fun s => { s with
              cancelAtPeriodEnd := upd.cancel_at_period_end
              cancelAt := upd.cancel_at.map (· * 1000)
              status := if immediate then .CANCELED else subscription.status
              updatedAt := now })
            db.subscriptions
        { db with subscriptions := subs }) db with
      | (db1, some e) => (db1, .error e)
      | (db1, none) => (db1, .ok { success := true, immediate := immediate })

/-- Source `PaymentsService.reactivateSubscription`: only a subscription of the
caller currently marked `cancelAtPeriodEnd` is eligible; on success the
optimistic local update clears `cancelAtPeriodEnd` and `cancelAt`. -/
def reactivateSubscription (fs : Faults) (stripe : StripeEnv) (now : Int)
    (userId subscriptionId : String) (db : DB) : DB × Except Err Bool :=
  match db.subscriptions.find? (fun s =>
      s.id == subscriptionId && s.userId == userId && s.cancelAtPeriodEnd) with
  | none => (db, .error (.notFound "Subscription not found or not eligible for reactivation"))
  | some subscription =>
    match stripe.reactivateSubscription subscription.stripeSubscriptionId with
    | .error e => (db, .error e)
    | .ok _ =>
      match dbWrite fs "subscription.update" (fun db =>
        let subs := updateManyBy (fun s => s.id == subscriptionId)
            (fun s => { s with cancelAtPeriodEnd := false, cancelAt := none, updatedAt := now })
            db.subscriptions
        { db with subscriptions := subs }) db with
      | (db1, some e) => (db1, .error e)
      | (db1, none) => (db1, .ok true)

/-- Source `PaymentsService.changeSubscription`: find the caller's subscription,
require the new price known and active, update at Stripe, then apply the
optimistic local price change. -/
def changeSubscription (fs : Faults) (stripe : StripeEnv) (now : Int)
    (userId subscriptionId newPriceId : String) (db : DB) : DB × Except Err Bool :=
  match db.subscriptions.find? (fun s => s.id == subscriptionId && s.userId == userId) with
  | none => (db, .error (.notFound "Subscription not found"))
  | some subscription =>
    match db.prices.find? (fun p => p.stripePriceId == newPriceId) with
    | none => (db, .error (.badRequest "Invalid or inactive price"))
    | some newPrice =>
      if !newPrice.active then (db, .error (.badRequest "Invalid or inactive price"))
      else
        match stripe.updateSubscription subscription.stripeSubscriptionId newPriceId with
        | .error e => (db, .error e)
        | .ok _ =>
          match dbWrite fs "subscription.update" (fun db =>
            let subs := updateManyBy (fun s => s.id == subscriptionId)
                (fun s => { s with priceId := newPrice.id, updatedAt := now })
                db.subscriptions
            { db with subscriptions := subs }) db with
          | (db1, some e) => (db1, .error e)
          | (db1, none) => (db1, .ok true)

/-- The message carried by an exception. -/
def Err.message : Err → String
  | .notFound m => m
  | .badRequest m => m
  | .stripeError m => m
  | .dbFault l => l

/-- HTTP outcome of the webhook endpoint. -/
inductive WebhookHttpResponse
  | ok200
  | badRequest400 (msg : String)
deriving DecidableEq, Repr

/-- Source `PaymentsController.handleWebhook`: reject a missing signature header or
body, verify and decode the payload, run `handleWebhookEvent`, and answer
`200 {received:true}` on success; every exception is rethrown as a
`BadRequestException`, i.e. a 400. -/
def handleWebhook (fs : Faults) (now : Int) (signature : Option String)
    (rawBody : Option String)
    (constructWebhookEvent : String → String → Except Err StripeEvent)
    (db : DB) : DB × Nat × WebhookHttpResponse :=
  match signature with
  | none => (db, 0, .badRequest400 "Missing stripe-signature header")
  | some sig =>
    match rawBody with
    | none => (db, 0, .badRequest400 "Missing request body")
    | some body =>
      match constructWebhookEvent body sig with
      | .error e => (db, 0, .badRequest400 e.message)
      | .ok ev =>
        match handleWebhookEvent fs now ev db with
        | (db1, n, none) => (db1, n, .ok200)
        | (db1, n, some e) => (db1, n, .badRequest400 e.message)

/-! ### Concurrent delivery of one event

`handleWebhookEvent` performs its ledger claim as two separate awaited
storage operations: a `findUnique` read followed by an `upsert` write.  Each
awaited operation is a suspension point, so two concurrent deliveries of
the same event interleave at operation granularity.  The program counter
below names the successive operations of one delivery of `handleWebhookEvent`
(fault-free, `fs = []`); a schedule chooses which of two deliveries moves. -/

/-- Program counter of one in-flight `handleWebhookEvent` call. -/
inductive HandlerPC
  | readLedger
  | claimLedger
  | runRouter
  | markDone
  | finished (ranRouter : Bool)
deriving DecidableEq, Repr

/-- Shared state: the database plus the ghost count of router entries. -/
structure ConcState where
  db : DB
  routerRuns : Nat
deriving DecidableEq, Repr

/-- One awaited operation of `handleWebhookEvent`, at the granularity of the
storage calls in the source (read, claim upsert, router, mark processed). -/
def handlerStep (now : Int) (ev : StripeEvent) :
    HandlerPC → ConcState → HandlerPC × ConcState
  | .readLedger, st =>
    let existingEvent := st.db.webhookEvents.find? (fun r => r.stripeEventId == ev.id)
    if (existingEvent.map (·.processed)).getD false then (.finished false, st)
    else (.claimLedger, st)
  | .claimLedger, st => (.runRouter, { st with db := webhookEventUpsert ev st.db })
  | .runRouter, st =>
    match processEvent [] now ev st.db with
    | (db1, none) => (.markDone, { db := db1, routerRuns := st.routerRuns + 1 })
    | (db1, some _) => (.finished true, { db := db1, routerRuns := st.routerRuns + 1 })
  | .markDone, st => (.finished true, { st with db := markProcessed now ev.id st.db })
  | .finished b, st => (.finished b, st)

/-- Run two concurrent deliveries of the same event under a schedule:
`true` steps the first handler, `false` the second. -/
def runSchedule (now : Int) (ev : StripeEvent) :
    List Bool → HandlerPC × HandlerPC × ConcState → HandlerPC × HandlerPC × ConcState
  | [], s => s
  | true :: rest, (a, b, st) =>
    let (a1, st1) := handlerStep now ev a st
    runSchedule now ev rest (a1, b, st1)
  | false :: rest, (a, b, st) =>
    let (b1, st1) := handlerStep now ev b st
    runSchedule now ev rest (a, b1, st1)
/-! ## Shared lemmas -/

/-- Characterization of the entitlement oracle. -/
theorem hasActiveSubscription_iff (db : DB) (userId : String) (now : Int) :
    hasActiveSubscription db userId now = true ↔
      ∃ s ∈ db.subscriptions, s.userId = userId
        ∧ (s.status = SubscriptionStatus.ACTIVE ∨ s.status = SubscriptionStatus.TRIALING)
        ∧ now < s.currentPeriodEnd := by
  unfold hasActiveSubscription
  rw [List.find?_isSome]
  simp [and_assoc]

/-! ## Claims -/

/-- C4: the subscription status mapping is total: each of the eight external
statuses maps to the matching local status, and every string outside that
vocabulary maps to the default `INCOMPLETE`, the first member of the local
enum. -/
theorem C4_mapSubscriptionStatus_total :
    mapSubscriptionStatus "incomplete" = .INCOMPLETE
    ∧ mapSubscriptionStatus "incomplete_expired" = .INCOMPLETE_EXPIRED
    ∧ mapSubscriptionStatus "trialing" = .TRIALING
    ∧ mapSubscriptionStatus "active" = .ACTIVE
    ∧ mapSubscriptionStatus "past_due" = .PAST_DUE
    ∧ mapSubscriptionStatus "canceled" = .CANCELED
    ∧ mapSubscriptionStatus "unpaid" = .UNPAID
    ∧ mapSubscriptionStatus "paused" = .PAUSED
    ∧ ∀ s : String,
        s ∉ (["incomplete", "incomplete_expired", "trialing", "active",
              "past_due", "canceled", "unpaid", "paused"] : List String) →
        mapSubscriptionStatus s = SubscriptionStatus.firstMember := by
  refine ⟨rfl, rfl, rfl, rfl, rfl, rfl, rfl, rfl, ?_⟩
  intro s hs
  simp only [List.mem_cons, List.not_mem_nil, or_false, not_or] at hs
  obtain ⟨h1, h2, h3, h4, h5, h6, h7, h8⟩ := hs
  simp [mapSubscriptionStatus, SubscriptionStatus.firstMember, h1, h2, h3, h4, h5, h6, h7, h8]

/-- C4 witness: an out-of-vocabulary status maps to the default. -/
theorem C4_mapSubscriptionStatus_total_witness :
    mapSubscriptionStatus "bogus_status" = SubscriptionStatus.firstMember :=
  C4_mapSubscriptionStatus_total.2.2.2.2.2.2.2.2 "bogus_status" (by decide)

/-- C7: `hasActiveSubscription` returns true iff some subscription of the
principal has status `ACTIVE` or `TRIALING` and `currentPeriodEnd` strictly
in the future; in particular an active subscription whose period ended one
second ago yields false, and one ending a second from now yields true. -/
theorem C7_hasActiveSubscription_boundary (db : DB) (userId : String) (now : Int) :
    (hasActiveSubscription db userId now = true ↔
      ∃ s ∈ db.subscriptions, s.userId = userId
        ∧ (s.status = SubscriptionStatus.ACTIVE ∨ s.status = SubscriptionStatus.TRIALING)
        ∧ now < s.currentPeriodEnd)
    ∧ (∀ s : Subscription, s.userId = userId → s.status = SubscriptionStatus.ACTIVE →
        s.currentPeriodEnd = now - 1000 →
        hasActiveSubscription { DB.empty with subscriptions := [s] } userId now = false)
    ∧ (∀ s : Subscription, s.userId = userId → s.status = SubscriptionStatus.ACTIVE →
        s.currentPeriodEnd = now + 1000 →
        hasActiveSubscription { DB.empty with subscriptions := [s] } userId now = true) := by
  refine ⟨hasActiveSubscription_iff db userId now, ?_, ?_⟩
  · intro s hu hst hend
    have hlt : ¬ (now < s.currentPeriodEnd) := by omega
    unfold hasActiveSubscription
    simp [DB.empty, List.find?, hu, hst, hlt]
  · intro s hu hst hend
    rw [hasActiveSubscription_iff]
    exact ⟨s, by simp [DB.empty], hu, Or.inl hst, by omega⟩

/-- A subscription whose current period ended one second before `now = 10000`. -/
def subPast : Subscription :=
  { id := "s_b", stripeSubscriptionId := "sub_b", userId := "u_b", priceId := "p_b"
    status := .ACTIVE, cancelAtPeriodEnd := false, cancelAt := none, canceledAt := none
    currentPeriodStart := 0, currentPeriodEnd := 9000, endedAt := none
    trialStart := none, trialEnd := none, metadata := [], updatedAt := 0 }

/-- A subscription whose current period ends one second after `now = 10000`. -/
def subFuture : Subscription := { subPast with currentPeriodEnd := 11000 }

/-- C7 witness: the entitlement boundary evaluated at `now = 10000` with a
period end one second (1000 ms) in the past, resp. in the future. -/
theorem C7_hasActiveSubscription_boundary_witness :
    hasActiveSubscription { DB.empty with subscriptions := [subPast] } "u_b" 10000 = false
    ∧ hasActiveSubscription { DB.empty with subscriptions := [subFuture] } "u_b" 10000 = true :=
  ⟨(C7_hasActiveSubscription_boundary DB.empty "u_b" 10000).2.1 subPast rfl rfl (by decide),
   (C7_hasActiveSubscription_boundary DB.empty "u_b" 10000).2.2 subFuture rfl rfl (by decide)⟩

/-- C9: the entitlement check ignores pending cancellation: any subscription
of the principal with status `ACTIVE` or `TRIALING` and a future period end
makes `hasActiveSubscription` true, whatever its `cancelAtPeriodEnd` and
`cancelAt` fields hold. -/
theorem C9_entitlement_ignores_cancellation_intent (db : DB) (userId : String)
    (now : Int) (s : Subscription) (hmem : s ∈ db.subscriptions)
    (hu : s.userId = userId)
    (hst : s.status = SubscriptionStatus.ACTIVE ∨ s.status = SubscriptionStatus.TRIALING)
    (hend : now < s.currentPeriodEnd) :
    hasActiveSubscription db userId now = true :=
  (hasActiveSubscription_iff db userId now).2 ⟨s, hmem, hu, hst, hend⟩

/-- A subscription marked for end-of-period cancellation, yet still inside
its paid period. -/
def subPendingCancel : Subscription :=
  { subPast with
    currentPeriodEnd := 11000
    cancelAtPeriodEnd := true
    cancelAt := some 11000
    canceledAt := some 5000 }

/-- C9 witness: a pending cancellation (`cancelAtPeriodEnd = true`,
`cancelAt` set) still counts as entitled while the period lasts. -/
theorem C9_entitlement_ignores_cancellation_intent_witness :
    subPendingCancel.cancelAtPeriodEnd = true
    ∧ subPendingCancel.cancelAt = some 11000
    ∧ hasActiveSubscription { DB.empty with subscriptions := [subPendingCancel] } "u_b" 10000 = true :=
  ⟨rfl, rfl,
   C9_entitlement_ignores_cancellation_intent _ _ _ subPendingCancel
     (by decide) rfl (Or.inl rfl) (by decide)⟩

/-- Concrete scenario state: user `u1` linked to `cus_1`, a product and an
active recurring price, and an `ACTIVE` subscription `sub_1`. -/
def userC3 : User :=
  { id := "u1", email := "u1@example.com", firstName := none, lastName := none
    stripeCustomerId := some "cus_1", updatedAt := 0 }

def productC3 : Product :=
  { id := "lp1", stripeProductId := "prod_1", name := "Pro", description := none
    metadata := [], active := true, updatedAt := 0 }

def priceC3 : Price :=
  { id := "lpr1", stripePriceId := "price_1", productId := "lp1", nickname := none
    currency := "usd", type := .RECURRING, unitAmount := some 999
    interval := some .MONTH, intervalCount := some 1, metadata := []
    active := true, updatedAt := 0 }

def subC3 : Subscription :=
  { id := "ls1", stripeSubscriptionId := "sub_1", userId := "u1", priceId := "lpr1"
    status := .ACTIVE, cancelAtPeriodEnd := false, cancelAt := none, canceledAt := none
    currentPeriodStart := 0, currentPeriodEnd := 100000, endedAt := none
    trialStart := none, trialEnd := none, metadata := [], updatedAt := 0 }

def dbC3 : DB := ⟨[userC3], [productC3], [priceC3], [subC3], [], []⟩

/-- The `customer.subscription.deleted` payload for `sub_1`. -/
def stripeSubDeletedC3 : StripeSubscription :=
  { id := "sub_1", customer := "cus_1", items := [⟨"price_1"⟩], status := "canceled"
    cancel_at_period_end := false, cancel_at := none, canceled_at := some 50
    current_period_start := 0, current_period_end := 100, ended_at := some 50
    trial_start := none, trial_end := none, metadata := [] }

/-- Event `evt_1`: `customer.subscription.deleted` for `sub_1`. -/
def evtC3 : StripeEvent :=
  ⟨"evt_1", "customer.subscription.deleted", .subscription stripeSubDeletedC3⟩

/-- C3: processing `evt_1` (subscription deleted) against an `ACTIVE`
`sub_1` enters the reconciler once and succeeds; afterwards the row has
status `CANCELED` with `endedAt` stamped and is still present; redelivering
`evt_1` leaves the database unchanged and never enters the reconciler. -/
theorem C3_subscription_deleted_scenario :
    (handleWebhookEvent [] 50000 evtC3 dbC3).2.1 = 1
    ∧ (handleWebhookEvent [] 50000 evtC3 dbC3).2.2 = none
    ∧ (∀ s ∈ (handleWebhookEvent [] 50000 evtC3 dbC3).1.subscriptions,
        s.stripeSubscriptionId = "sub_1" →
          s.status = SubscriptionStatus.CANCELED ∧ s.endedAt = some 50000)
    ∧ (∃ s ∈ (handleWebhookEvent [] 50000 evtC3 dbC3).1.subscriptions,
        s.stripeSubscriptionId = "sub_1")
    ∧ handleWebhookEvent [] 60000 evtC3 (handleWebhookEvent [] 50000 evtC3 dbC3).1
        = ((handleWebhookEvent [] 50000 evtC3 dbC3).1, 0, none) := by
  decide

/-- Event used for the concurrent-delivery analysis. -/
def evtC1 : StripeEvent :=
  ⟨"evt_c1", "customer.subscription.deleted",
   .subscription { stripeSubDeletedC3 with id := "sub_c1" }⟩

/-- C1: the ledger claim of `handleWebhookEvent` is a `findUnique` read
followed by a separate `upsert` write, so the interleaving in which both
concurrent deliveries of `evt_c1` perform their read before either writes
lets both observe "not yet processed" and both execute the reconciler
(router entered twice); under the sequential schedule the second delivery
sees the processed mark and the router runs only once. -/
theorem C1_check_then_act_race :
    (runSchedule 1000 evtC1 [true, false, true, true, true, false, false, false]
        (.readLedger, .readLedger, ⟨DB.empty, 0⟩)).2.2.routerRuns = 2
    ∧ (runSchedule 1000 evtC1 [true, false, true, true, true, false, false, false]
        (.readLedger, .readLedger, ⟨DB.empty, 0⟩)).1 = .finished true
    ∧ (runSchedule 1000 evtC1 [true, false, true, true, true, false, false, false]
        (.readLedger, .readLedger, ⟨DB.empty, 0⟩)).2.1 = .finished true
    ∧ (runSchedule 1000 evtC1 [true, true, true, true, false, false, false, false]
        (.readLedger, .readLedger, ⟨DB.empty, 0⟩)).2.2.routerRuns = 1 := by
  decide

/-- After the claim upsert, the ledger holds a row for the event id that is
still unprocessed (given the early-return check saw no processed row). -/
theorem webhookEventUpsert_claim (ev : StripeEvent) (db : DB)
    (h : ((db.webhookEvents.find? (fun r => r.stripeEventId == ev.id)).map
          (·.processed)).getD false = false) :
    ∃ r ∈ (webhookEventUpsert ev db).webhookEvents,
      r.stripeEventId = ev.id ∧ r.processed = false := by
  unfold webhookEventUpsert upsertBy
  rcases hf : db.webhookEvents.find? (fun r => r.stripeEventId == ev.id) with _ | r
  · have hany : db.webhookEvents.any (fun r => r.stripeEventId == ev.id) = false := by
      rw [List.find?_eq_none] at hf
      by_contra hc
      rw [Bool.not_eq_false, List.any_eq_true] at hc
      obtain ⟨x, hx, hpx⟩ := hc
      exact hf x hx hpx
    rw [hany]
    refine ⟨{ stripeEventId := ev.id, type := ev.type, data := ev.data
              processed := false, processedAt := none }, ?_, rfl, rfl⟩
    simp
  · have hpr : r.processed = false := by rw [hf] at h; simpa using h
    have hmem := List.mem_of_find?_eq_some hf
    have hhit := List.find?_some hf
    have hany : db.webhookEvents.any (fun x => x.stripeEventId == ev.id) = true :=
      List.any_eq_true.2 ⟨r, hmem, hhit⟩
    rw [hany]
    refine ⟨{ r with type := ev.type, data := ev.data }, ?_, by simpa using hhit, hpr⟩
    have hm := List.mem_map_of_mem
      (fun x => if x.stripeEventId == ev.id
                then { x with type := ev.type, data := ev.data } else x) hmem
    simp only [hhit, if_true] at hm
    exact hm

/-- A faultable write built from a ledger-preserving update preserves the
ledger. -/
theorem dbWrite_webhookEvents (fs : Faults) (label : String) (f : DB → DB)
    (db : DB) (hf : ∀ d, (f d).webhookEvents = d.webhookEvents) :
    ((dbWrite fs label f db).1).webhookEvents = db.webhookEvents := by
  unfold dbWrite
  split
  · rfl
  · exact hf db

theorem handleSubscriptionUpdated_webhookEvents (fs : Faults) (now : Int)
    (s : StripeSubscription) (db : DB) :
    ((handleSubscriptionUpdated fs now s db).1).webhookEvents = db.webhookEvents := by
  unfold handleSubscriptionUpdated
  repeat' split
  all_goals first
    | rfl
    | exact dbWrite_webhookEvents _ _ _ _ (fun d => rfl)

theorem handleSubscriptionDeleted_webhookEvents (fs : Faults) (now : Int)
    (s : StripeSubscription) (db : DB) :
    ((handleSubscriptionDeleted fs now s db).1).webhookEvents = db.webhookEvents := by
  unfold handleSubscriptionDeleted
  exact dbWrite_webhookEvents _ _ _ _ (fun d => rfl)

theorem handleInvoicePaymentSucceeded_webhookEvents (fs : Faults) (now : Int)
    (i : StripeInvoice) (db : DB) :
    ((handleInvoicePaymentSucceeded fs now i db).1).webhookEvents = db.webhookEvents := by
  unfold handleInvoicePaymentSucceeded
  repeat' split
  all_goals first
    | rfl
    | exact dbWrite_webhookEvents _ _ _ _ (fun d => rfl)

theorem handleInvoicePaymentFailed_webhookEvents (fs : Faults) (now : Int)
    (i : StripeInvoice) (db : DB) :
    ((handleInvoicePaymentFailed fs now i db).1).webhookEvents = db.webhookEvents := by
  unfold handleInvoicePaymentFailed
  repeat' split
  all_goals first
    | rfl
    | exact dbWrite_webhookEvents _ _ _ _ (fun d => rfl)

theorem handleCustomerCreated_webhookEvents (fs : Faults) (now : Int)
    (c : StripeCustomer) (db : DB) :
    ((handleCustomerCreated fs now c db).1).webhookEvents = db.webhookEvents := by
  unfold handleCustomerCreated
  repeat' split
  all_goals first
    | rfl
    | exact dbWrite_webhookEvents _ _ _ _ (fun d => rfl)

theorem handleCustomerUpdated_webhookEvents (fs : Faults) (now : Int)
    (c : StripeCustomer) (db : DB) :
    ((handleCustomerUpdated fs now c db).1).webhookEvents = db.webhookEvents := by
  unfold handleCustomerUpdated
  repeat' split
  all_goals first
    | rfl
    | exact dbWrite_webhookEvents _ _ _ _ (fun d => rfl)

theorem handleProductUpdated_webhookEvents (fs : Faults) (now : Int)
    (p : StripeProduct) (db : DB) :
    ((handleProductUpdated fs now p db).1).webhookEvents = db.webhookEvents := by
  unfold handleProductUpdated
  exact dbWrite_webhookEvents _ _ _ _ (fun d => rfl)

theorem handleProductDeleted_webhookEvents (fs : Faults) (now : Int)
    (p : StripeProduct) (db : DB) :
    ((handleProductDeleted fs now p db).1).webhookEvents = db.webhookEvents := by
  unfold handleProductDeleted
  exact dbWrite_webhookEvents _ _ _ _ (fun d => rfl)

theorem handlePriceUpdated_webhookEvents (fs : Faults) (now : Int)
    (p : StripePrice) (db : DB) :
    ((handlePriceUpdated fs now p db).1).webhookEvents = db.webhookEvents := by
  unfold handlePriceUpdated
  repeat' split
  all_goals first
    | rfl
    | exact dbWrite_webhookEvents _ _ _ _ (fun d => rfl)

theorem handlePriceDeleted_webhookEvents (fs : Faults) (now : Int)
    (p : StripePrice) (db : DB) :
    ((handlePriceDeleted fs now p db).1).webhookEvents = db.webhookEvents := by
  unfold handlePriceDeleted
  exact dbWrite_webhookEvents _ _ _ _ (fun d => rfl)

theorem handlePaymentMethodAttached_webhookEvents (fs : Faults) (now : Int)
    (pm : StripePaymentMethod) (db : DB) :
    ((handlePaymentMethodAttached fs now pm db).1).webhookEvents = db.webhookEvents := by
  unfold handlePaymentMethodAttached
  repeat' split
  all_goals first
    | rfl
    | exact dbWrite_webhookEvents _ _ _ _ (fun d => rfl)

theorem handlePaymentMethodDetached_webhookEvents (fs : Faults)
    (pm : StripePaymentMethod) (db : DB) :
    ((handlePaymentMethodDetached fs pm db).1).webhookEvents = db.webhookEvents := by
  unfold handlePaymentMethodDetached
  repeat' split
  all_goals rfl

/-- No reconciler touches the ledger table. -/
theorem processEvent_webhookEvents (fs : Faults) (now : Int) (ev : StripeEvent)
    (db : DB) : ((processEvent fs now ev db).1).webhookEvents = db.webhookEvents := by
  unfold processEvent
  cases route ev
  case subscriptionUpsert s => exact handleSubscriptionUpdated_webhookEvents fs now s db
  case subscriptionDelete s => exact handleSubscriptionDeleted_webhookEvents fs now s db
  case invoiceSucceeded i => exact handleInvoicePaymentSucceeded_webhookEvents fs now i db
  case invoiceFailed i => exact handleInvoicePaymentFailed_webhookEvents fs now i db
  case customerCreated c => exact handleCustomerCreated_webhookEvents fs now c db
  case customerUpdated c => exact handleCustomerUpdated_webhookEvents fs now c db
  case productUpsert p => exact handleProductUpdated_webhookEvents fs now p db
  case productDelete p => exact handleProductDeleted_webhookEvents fs now p db
  case priceUpsert p => exact handlePriceUpdated_webhookEvents fs now p db
  case priceDelete p => exact handlePriceDeleted_webhookEvents fs now p db
  case paymentMethodAttach m => exact handlePaymentMethodAttached_webhookEvents fs now m db
  case paymentMethodDetach m => exact handlePaymentMethodDetached_webhookEvents fs m db
  case skip => rfl

/-- Marking an event processed leaves a processed ledger row for its id. -/
theorem markProcessed_processed (now : Int) (evId : String) (db : DB)
    (r : WebhookEventRecord) (hmem : r ∈ db.webhookEvents)
    (hid : r.stripeEventId = evId) :
    ∃ x ∈ (markProcessed now evId db).webhookEvents,
      x.stripeEventId = evId ∧ x.processed = true := by
  unfold markProcessed updateManyBy
  refine ⟨{ r with processed := true, processedAt := some now }, ?_, hid, rfl⟩
  have hhit : (r.stripeEventId == evId) = true := by simpa using hid
  have hm := List.mem_map_of_mem
    (fun x => if x.stripeEventId == evId
              then { x with processed := true, processedAt := some now } else x) hmem
  simp only [hhit, if_true] at hm
  exact hm

/-- C10: `handlePaymentMethodDetached` never raises — the catch swallows
every failure of the underlying delete, absence and storage faults alike —
so a `payment_method.detached` event always completes processing and is
marked processed (given only that the two ledger writes themselves do not
fault and the event is not yet processed). -/
theorem C10_detached_never_raises :
    (∀ (fs : Faults) (pm : StripePaymentMethod) (db : DB),
      (handlePaymentMethodDetached fs pm db).2 = none)
    ∧ (∀ (fs : Faults) (now : Int) (evId : String) (pm : StripePaymentMethod) (db : DB),
        fs.contains "webhookEvent.upsert" = false →
        fs.contains "webhookEvent.update" = false →
        ((db.webhookEvents.find? (fun r => r.stripeEventId == evId)).map
          (·.processed)).getD false = false →
        (handleWebhookEvent fs now ⟨evId, "payment_method.detached", .paymentMethod pm⟩ db).2.2 = none
        ∧ ∃ r ∈ (handleWebhookEvent fs now
              ⟨evId, "payment_method.detached", .paymentMethod pm⟩ db).1.webhookEvents,
            r.stripeEventId = evId ∧ r.processed = true) := by
  constructor
  · intro fs pm db
    rfl
  · intro fs now evId pm db h1 h2 h3
    have hpe : ∀ d : DB,
        processEvent fs now ⟨evId, "payment_method.detached", .paymentMethod pm⟩ d =
          ((handlePaymentMethodDetached fs pm d).1, none) := fun d => rfl
    have hres : handleWebhookEvent fs now
        ⟨evId, "payment_method.detached", .paymentMethod pm⟩ db =
        (markProcessed now evId
          (handlePaymentMethodDetached fs pm
            (webhookEventUpsert ⟨evId, "payment_method.detached", .paymentMethod pm⟩ db)).1,
         1, none) := by
      simp only [handleWebhookEvent, dbWrite, hpe, h1, h2, h3, Bool.false_eq_true, if_false]
    refine ⟨by rw [hres], ?_⟩
    rw [hres]
    obtain ⟨r, hrmem, hrid, _⟩ :=
      webhookEventUpsert_claim ⟨evId, "payment_method.detached", .paymentMethod pm⟩ db h3
    have hrmem2 : r ∈ (handlePaymentMethodDetached fs pm
        (webhookEventUpsert ⟨evId, "payment_method.detached", .paymentMethod pm⟩ db)).1.webhookEvents := by
      rw [handlePaymentMethodDetached_webhookEvents]
      exact hrmem
    exact markProcessed_processed now evId _ r hrmem2 hrid

/-- A detached payment method and a database still holding its row. -/
def pmC10 : StripePaymentMethod := ⟨"pm_1", some "cus_9", "card", none⟩

def pmRowC10 : PaymentMethod :=
  { stripePaymentMethodId := "pm_1", userId := "u9", type := "card", brand := none
    last4 := none, expiryMonth := none, expiryYear := none, updatedAt := 0 }

def dbC10 : DB := ⟨[], [], [], [], [pmRowC10], []⟩

/-- C10 witness: with the delete itself faulted (a failure other than
absence), the handler still reports success and the event is marked
processed. -/
theorem C10_detached_never_raises_witness :
    (handlePaymentMethodDetached ["paymentMethod.delete"] pmC10 dbC10).2 = none
    ∧ (handleWebhookEvent ["paymentMethod.delete"] 7
        ⟨"evt_pm", "payment_method.detached", .paymentMethod pmC10⟩ dbC10).2.2 = none
    ∧ ∃ r ∈ (handleWebhookEvent ["paymentMethod.delete"] 7
        ⟨"evt_pm", "payment_method.detached", .paymentMethod pmC10⟩ dbC10).1.webhookEvents,
        r.stripeEventId = "evt_pm" ∧ r.processed = true :=
  ⟨C10_detached_never_raises.1 ["paymentMethod.delete"] pmC10 dbC10,
   (C10_detached_never_raises.2 ["paymentMethod.delete"] 7 "evt_pm" pmC10 dbC10
      (by decide) (by decide) (by decide)).1,
   (C10_detached_never_raises.2 ["paymentMethod.delete"] 7 "evt_pm" pmC10 dbC10
      (by decide) (by decide) (by decide)).2⟩

/-- C6: a reconciler exception leaves the ledger row unprocessed and
propagates to the endpoint as a 400 (non-2xx), and the endpoint answers
`200 {received:true}` exactly when `handleWebhookEvent` raised nothing, in
which case the ledger holds a processed row for the event id (durably
claimed and marked, or already processed earlier). -/
theorem C6_reconciler_error_propagates :
    (∀ (fs : Faults) (now : Int) (ev : StripeEvent) (db db2 : DB) (e : Err),
      ((db.webhookEvents.find? (fun r => r.stripeEventId == ev.id)).map
        (·.processed)).getD false = false →
      fs.contains "webhookEvent.upsert" = false →
      processEvent fs now ev (webhookEventUpsert ev db) = (db2, some e) →
      handleWebhookEvent fs now ev db = (db2, 1, some e)
      ∧ (∃ r ∈ db2.webhookEvents, r.stripeEventId = ev.id ∧ r.processed = false)
      ∧ ∀ (body sig : String) (cev : String → String → Except Err StripeEvent),
          cev body sig = Except.ok ev →
          handleWebhook fs now (some sig) (some body) cev db =
            (db2, 1, .badRequest400 e.message))
    ∧ (∀ (fs : Faults) (now : Int) (ev : StripeEvent) (db db' : DB) (n : Nat),
        handleWebhookEvent fs now ev db = (db', n, none) →
        ∃ r ∈ db'.webhookEvents, r.stripeEventId = ev.id ∧ r.processed = true)
    ∧ (∀ (fs : Faults) (now : Int) (ev : StripeEvent) (db : DB) (sig body : String)
        (cev : String → String → Except Err StripeEvent),
        cev body sig = Except.ok ev →
        ((handleWebhook fs now (some sig) (some body) cev db).2.2 = .ok200 ↔
          (handleWebhookEvent fs now ev db).2.2 = none)) := by
  refine ⟨?_, ?_, ?_⟩
  · intro fs now ev db db2 e h3 h1 hpe
    have hA : handleWebhookEvent fs now ev db = (db2, 1, some e) := by
      simp only [handleWebhookEvent, dbWrite, h1, h3, Bool.false_eq_true, if_false, hpe]
    refine ⟨hA, ?_, ?_⟩
    · obtain ⟨r, hrmem, hrid, hrp⟩ := webhookEventUpsert_claim ev db h3
      have hdb2 : db2.webhookEvents = (webhookEventUpsert ev db).webhookEvents := by
        have := processEvent_webhookEvents fs now ev (webhookEventUpsert ev db)
        rw [hpe] at this
        exact this
      exact ⟨r, by rw [hdb2]; exact hrmem, hrid, hrp⟩
    · intro body sig cev hcev
      simp only [handleWebhook, hcev, hA]
  · intro fs now ev db db' n h
    by_cases hc : ((db.webhookEvents.find? (fun r => r.stripeEventId == ev.id)).map
        (·.processed)).getD false = true
    · have hres : handleWebhookEvent fs now ev db = (db, 0, none) := by
        simp only [handleWebhookEvent, hc, if_true]
      rw [hres] at h
      have hdb : db' = db := (congrArg (·.1) h).symm
      rcases hf : db.webhookEvents.find? (fun r => r.stripeEventId == ev.id) with _ | r
      · rw [hf] at hc
        simp at hc
      · have hpr : r.processed = true := by rw [hf] at hc; simpa using hc
        have hmem := List.mem_of_find?_eq_some hf
        have hhit := List.find?_some hf
        exact ⟨r, by rw [hdb]; exact hmem, by simpa using hhit, hpr⟩
    · have hc' : ((db.webhookEvents.find? (fun r => r.stripeEventId == ev.id)).map
          (·.processed)).getD false = false := by simpa using hc
      by_cases hup : fs.contains "webhookEvent.upsert" = true
      · have hres : handleWebhookEvent fs now ev db =
            (db, 0, some (.dbFault "webhookEvent.upsert")) := by
          simp only [handleWebhookEvent, dbWrite, hc', hup, if_true, Bool.false_eq_true, if_false]
        rw [hres] at h
        have := congrArg (·.2.2) h
        simp at this
      · have hup' : fs.contains "webhookEvent.upsert" = false := by simpa using hup
        rcases hpe : processEvent fs now ev (webhookEventUpsert ev db) with ⟨db2, err⟩
        rcases err with _ | e
        · by_cases hmk : fs.contains "webhookEvent.update" = true
          · have hres : handleWebhookEvent fs now ev db =
                (db2, 1, some (.dbFault "webhookEvent.update")) := by
              simp only [handleWebhookEvent, dbWrite, hc', hup', hmk, if_true,
                Bool.false_eq_true, if_false, hpe]
            rw [hres] at h
            have := congrArg (·.2.2) h
            simp at this
          · have hmk' : fs.contains "webhookEvent.update" = false := by simpa using hmk
            have hres : handleWebhookEvent fs now ev db =
                (markProcessed now ev.id db2, 1, none) := by
              simp only [handleWebhookEvent, dbWrite, hc', hup', hmk',
                Bool.false_eq_true, if_false, hpe]
            rw [hres] at h
            have hdb : db' = markProcessed now ev.id db2 := (congrArg (·.1) h).symm
            obtain ⟨r, hrmem, hrid, -⟩ := webhookEventUpsert_claim ev db hc'
            have hdb2 : db2.webhookEvents = (webhookEventUpsert ev db).webhookEvents := by
              have := processEvent_webhookEvents fs now ev (webhookEventUpsert ev db)
              rw [hpe] at this
              exact this
            have hrmem2 : r ∈ db2.webhookEvents := by rw [hdb2]; exact hrmem
            rw [hdb]
            exact markProcessed_processed now ev.id db2 r hrmem2 hrid
        · have hres : handleWebhookEvent fs now ev db = (db2, 1, some e) := by
            simp only [handleWebhookEvent, dbWrite, hc', hup',
              Bool.false_eq_true, if_false, hpe]
          rw [hres] at h
          have := congrArg (·.2.2) h
          simp at this
  · intro fs now ev db sig body cev hcev
    rcases hh : handleWebhookEvent fs now ev db with ⟨db1, n1, err⟩
    rcases err with _ | e
    · simp [handleWebhook, hcev, hh]
    · simp [handleWebhook, hcev, hh]

/-- Event whose reconciler will fault: a subscription deletion whose
`updateMany` write is faulted. -/
def evtC6 : StripeEvent :=
  ⟨"evt_c6", "customer.subscription.deleted",
   .subscription { stripeSubDeletedC3 with id := "sub_c6" }⟩

/-- C6 witness: with the subscription write faulted, processing `evt_c6`
leaves its ledger row unprocessed, the exception propagates, and the
endpoint answers 400. -/
theorem C6_reconciler_error_propagates_witness :
    handleWebhookEvent ["subscription.updateMany"] 5 evtC6 DB.empty =
      (webhookEventUpsert evtC6 DB.empty, 1, some (.dbFault "subscription.updateMany"))
    ∧ (∃ r ∈ (webhookEventUpsert evtC6 DB.empty).webhookEvents,
        r.stripeEventId = evtC6.id ∧ r.processed = false)
    ∧ handleWebhook ["subscription.updateMany"] 5 (some "sig") (some "body")
        (fun _ _ => .ok evtC6) DB.empty =
      (webhookEventUpsert evtC6 DB.empty, 1,
        .badRequest400 (Err.message (.dbFault "subscription.updateMany"))) :=
  have h := C6_reconciler_error_propagates.1 ["subscription.updateMany"] 5 evtC6 DB.empty
    (webhookEventUpsert evtC6 DB.empty) (.dbFault "subscription.updateMany")
    (by decide) (by decide) (by decide)
  ⟨h.1, h.2.1, h.2.2 "body" "sig" (fun _ _ => .ok evtC6) rfl⟩

/-- C5: a subscription upsert event whose customer or first-line-item price
does not resolve locally writes nothing and raises nothing; and the
reconciler preserves referential integrity — it never creates a
subscription row whose `userId` or `priceId` fails to resolve. -/
theorem C5_unresolved_reference_skips :
    (∀ (fs : Faults) (now : Int) (sub : StripeSubscription) (db : DB),
      db.users.find? (fun u => u.stripeCustomerId == some sub.customer) = none →
      handleSubscriptionUpdated fs now sub db = (db, none))
    ∧ (∀ (fs : Faults) (now : Int) (sub : StripeSubscription) (db : DB) (pid : String),
        (sub.items.head?).map (·.priceId) = some pid →
        db.prices.find? (fun p => p.stripePriceId == pid) = none →
        handleSubscriptionUpdated fs now sub db = (db, none))
    ∧ (∀ (fs : Faults) (now : Int) (sub : StripeSubscription) (db : DB),
        (∀ s ∈ db.subscriptions,
          (∃ u ∈ db.users, u.id = s.userId) ∧ ∃ p ∈ db.prices, p.id = s.priceId) →
        ∀ s ∈ (handleSubscriptionUpdated fs now sub db).1.subscriptions,
          (∃ u ∈ (handleSubscriptionUpdated fs now sub db).1.users, u.id = s.userId)
          ∧ ∃ p ∈ (handleSubscriptionUpdated fs now sub db).1.prices, p.id = s.priceId) := by
  refine ⟨?_, ?_, ?_⟩
  · intro fs now sub db hu
    simp only [handleSubscriptionUpdated, hu]
  · intro fs now sub db pid hpid hp
    rcases hu : db.users.find? (fun u => u.stripeCustomerId == some sub.customer) with _ | user
    · simp only [handleSubscriptionUpdated, hu]
    · simp only [handleSubscriptionUpdated, hu, hpid, hp]
  · intro fs now sub db hinv
    rcases hu : db.users.find? (fun u => u.stripeCustomerId == some sub.customer) with _ | user
    · simpa only [handleSubscriptionUpdated, hu] using hinv
    · rcases hpid : (sub.items.head?).map (·.priceId) with _ | pid
      · simpa only [handleSubscriptionUpdated, hu, hpid] using hinv
      · rcases hp : db.prices.find? (fun p => p.stripePriceId == pid) with _ | price
        · simpa only [handleSubscriptionUpdated, hu, hpid, hp] using hinv
        · by_cases hf : fs.contains "subscription.upsert" = true
          · have : handleSubscriptionUpdated fs now sub db =
                (db, some (.dbFault "subscription.upsert")) := by
              simp only [handleSubscriptionUpdated, hu, hpid, hp, dbWrite, hf, if_true]
            simpa only [this] using hinv
          · have hf' : fs.contains "subscription.upsert" = false := by simpa using hf
            have hmemu := List.mem_of_find?_eq_some hu
            have hmemp := List.mem_of_find?_eq_some hp
            rw [handleSubscriptionUpdated]
            simp only [hu, hpid, hp, dbWrite, hf', Bool.false_eq_true, if_false]
            intro s hs
            simp only [upsertBy] at hs
            constructor
            all_goals {
              split at hs
              · obtain ⟨y, hy, hys⟩ := List.mem_map.1 hs
                rcases hx : (y.stripeSubscriptionId == sub.id) with _ | _
                all_goals (
                  rw [hx] at hys
                  subst hys
                  first
                    | exact (hinv y hy).1
                    | exact (hinv y hy).2)
              · rcases List.mem_append.1 hs with hmem | hone
                · first
                    | exact (hinv s hmem).1
                    | exact (hinv s hmem).2
                · have hseq := List.mem_singleton.1 hone
                  subst hseq
                  first
                    | exact ⟨user, hmemu, rfl⟩
                    | exact ⟨price, hmemp, rfl⟩
            }

/-- A store knowing the linked user `u1` but no price at all. -/
def dbC5 : DB := ⟨[userC3], [], [], [], [], []⟩

/-- A subscription payload for `cus_1` whose line item names an unknown
price. -/
def subC5 : StripeSubscription :=
  { stripeSubDeletedC3 with
    id := "sub_x"
    items := [⟨"price_X"⟩]
    status := "active" }

/-- C5 witness: with no resolvable customer (empty store) or no resolvable
price (store `dbC5`), the reconciler writes nothing and raises nothing, and
referential integrity is preserved. -/
theorem C5_unresolved_reference_skips_witness :
    handleSubscriptionUpdated [] 3 subC5 DB.empty = (DB.empty, none)
    ∧ handleSubscriptionUpdated [] 3 subC5 dbC5 = (dbC5, none)
    ∧ ∀ s ∈ (handleSubscriptionUpdated [] 3 subC5 dbC5).1.subscriptions,
        (∃ u ∈ (handleSubscriptionUpdated [] 3 subC5 dbC5).1.users, u.id = s.userId)
        ∧ ∃ p ∈ (handleSubscriptionUpdated [] 3 subC5 dbC5).1.prices, p.id = s.priceId :=
  ⟨C5_unresolved_reference_skips.1 [] 3 subC5 DB.empty (by decide),
   C5_unresolved_reference_skips.2.1 [] 3 subC5 dbC5 "price_X" (by decide) (by decide),
   C5_unresolved_reference_skips.2.2 [] 3 subC5 dbC5 (by decide)⟩

/-- C8: with `cancelAtPeriodEnd = false` (for every row matching the caller
and id), reactivation fails with the not-eligible error and changes
nothing; with a matching `cancelAtPeriodEnd = true` row, a successful
Stripe call and an unfaulted write, it succeeds and afterwards the row has
`cancelAtPeriodEnd = false` and `cancelAt = none`. -/
theorem C8_reactivation_eligibility :
    (∀ (fs : Faults) (stripe : StripeEnv) (now : Int) (userId sid : String) (db : DB),
      (∀ s ∈ db.subscriptions, s.id = sid → s.userId = userId → s.cancelAtPeriodEnd = false) →
      reactivateSubscription fs stripe now userId sid db =
        (db, .error (.notFound "Subscription not found or not eligible for reactivation")))
    ∧ (∀ (fs : Faults) (stripe : StripeEnv) (now : Int) (userId sid : String) (db : DB)
        (s : Subscription) (r : StripeSubResult),
        db.subscriptions.find?
          (fun x => x.id == sid && x.userId == userId && x.cancelAtPeriodEnd) = some s →
        stripe.reactivateSubscription s.stripeSubscriptionId = .ok r →
        fs.contains "subscription.update" = false →
        (reactivateSubscription fs stripe now userId sid db).2 = .ok true
        ∧ ∀ x ∈ (reactivateSubscription fs stripe now userId sid db).1.subscriptions,
            x.id = sid → x.cancelAtPeriodEnd = false ∧ x.cancelAt = none) := by
  constructor
  · intro fs stripe now userId sid db h
    have hfind : db.subscriptions.find?
        (fun x => x.id == sid && x.userId == userId && x.cancelAtPeriodEnd) = none := by
      rw [List.find?_eq_none]
      intro x hx hpx
      simp only [Bool.and_eq_true, beq_iff_eq] at hpx
      exact absurd (h x hx hpx.1.1 hpx.1.2) (by simp [hpx.2])
    simp only [reactivateSubscription, hfind]
  · intro fs stripe now userId sid db s r hfind hstripe hupd
    have hres : reactivateSubscription fs stripe now userId sid db =
        ({ db with subscriptions :=
                     updateManyBy (fun s => s.id == sid)
                       (fun s => { s with cancelAtPeriodEnd := false, cancelAt := none
                                          updatedAt := now })
                       db.subscriptions },
         Except.ok true) := by
      simp only [reactivateSubscription, hfind, hstripe, dbWrite, hupd,
        Bool.false_eq_true, if_false]
    refine ⟨by rw [hres], ?_⟩
    rw [hres]
    intro x hx hxid
    simp only [updateManyBy] at hx
    obtain ⟨y, hy, hyx⟩ := List.mem_map.1 hx
    rcases hb : (y.id == sid) with _ | _
    · rw [hb] at hyx
      simp only [Bool.false_eq_true, if_false] at hyx
      subst hyx
      exact absurd hxid (by simpa using hb)
    · rw [hb] at hyx
      simp only [if_true] at hyx
      subst hyx
      exact ⟨rfl, rfl⟩

/-- A Stripe oracle whose calls all succeed. -/
def stripeOk : StripeEnv :=
  { createCustomer := fun _ _ => .ok "cus_new"
    createCheckoutSession := fun _ => .ok ⟨"cs_1", some "https://checkout"⟩
    createPortalSession := fun _ _ => .ok ⟨"https://portal"⟩
    cancelSubscription := fun _ immediate => .ok ⟨!immediate, none⟩
    reactivateSubscription := fun _ => .ok ⟨false, none⟩
    updateSubscription := fun _ _ => .ok ⟨false, none⟩ }

/-- A subscription of `u1` marked for end-of-period cancellation. -/
def subC8yes : Subscription :=
  { subC3 with
    id := "ls8"
    stripeSubscriptionId := "sub_8"
    cancelAtPeriodEnd := true
    cancelAt := some 99000 }

/-- The same subscription, not marked for cancellation. -/
def subC8no : Subscription := { subC8yes with cancelAtPeriodEnd := false, cancelAt := none }

def dbC8yes : DB := ⟨[userC3], [], [], [subC8yes], [], []⟩

def dbC8no : DB := ⟨[userC3], [], [], [subC8no], [], []⟩

/-- C8 witness: the not-eligible rejection and the successful reactivation,
each at a concrete store. -/
theorem C8_reactivation_eligibility_witness :
    reactivateSubscription [] stripeOk 4 "u1" "ls8" dbC8no =
      (dbC8no, .error (.notFound "Subscription not found or not eligible for reactivation"))
    ∧ (reactivateSubscription [] stripeOk 4 "u1" "ls8" dbC8yes).2 = .ok true
    ∧ ∀ x ∈ (reactivateSubscription [] stripeOk 4 "u1" "ls8" dbC8yes).1.subscriptions,
        x.id = "ls8" → x.cancelAtPeriodEnd = false ∧ x.cancelAt = none :=
  ⟨C8_reactivation_eligibility.1 [] stripeOk 4 "u1" "ls8" dbC8no (by decide),
   (C8_reactivation_eligibility.2 [] stripeOk 4 "u1" "ls8" dbC8yes subC8yes
      ⟨false, none⟩ (by decide) rfl (by decide)).1,
   (C8_reactivation_eligibility.2 [] stripeOk 4 "u1" "ls8" dbC8yes subC8yes
      ⟨false, none⟩ (by decide) rfl (by decide)).2⟩

/-- C2 (amended): portal, cancel, reactivate and change leave the store
untouched whenever they return an error; checkout commits at most the
customer-linkage write (persisting a freshly created Stripe customer id on
the user) — in every run its final store is the initial one or the initial
one with that single linkage applied. -/
theorem C2_error_leaves_state_unchanged :
    (∀ (stripe : StripeEnv) (appUrl userId : String) (db : DB),
      (createPortalSession stripe appUrl userId db).1 = db)
    ∧ (∀ (fs : Faults) (stripe : StripeEnv) (now : Int) (userId sid : String)
        (imm : Bool) (db : DB) (e : Err),
        (cancelSubscription fs stripe now userId sid imm db).2 = .error e →
        (cancelSubscription fs stripe now userId sid imm db).1 = db)
    ∧ (∀ (fs : Faults) (stripe : StripeEnv) (now : Int) (userId sid : String)
        (db : DB) (e : Err),
        (reactivateSubscription fs stripe now userId sid db).2 = .error e →
        (reactivateSubscription fs stripe now userId sid db).1 = db)
    ∧ (∀ (fs : Faults) (stripe : StripeEnv) (now : Int) (userId sid pid : String)
        (db : DB) (e : Err),
        (changeSubscription fs stripe now userId sid pid db).2 = .error e →
        (changeSubscription fs stripe now userId sid pid db).1 = db)
    ∧ (∀ (fs : Faults) (stripe : StripeEnv) (now : Int) (userId : String)
        (dto : CreateCheckoutSessionDto) (db : DB),
        (createCheckoutSession fs stripe now userId dto db).1 = db
        ∨ ∃ cid, (createCheckoutSession fs stripe now userId dto db).1 =
            { db with users :=
                        updateManyBy (fun u => u.id == userId)
                          (fun u => { u with stripeCustomerId := some cid
                                             updatedAt := now })
                          db.users }) := by
  refine ⟨?_, ?_, ?_, ?_, ?_⟩
  · intro stripe appUrl userId db
    simp only [createPortalSession]
    repeat' split
    all_goals rfl
  · intro fs stripe now userId sid imm db e h
    rcases hfind : db.subscriptions.find? (fun s => s.id == sid && s.userId == userId)
      with _ | s
    · simp only [cancelSubscription, hfind]
    · rcases hc : stripe.cancelSubscription s.stripeSubscriptionId imm with e' | upd
      · simp only [cancelSubscription, hfind, hc]
      · by_cases hf : fs.contains "subscription.update" = true
        · simp only [cancelSubscription, hfind, hc, dbWrite, hf, if_true]
        · have hf' : fs.contains "subscription.update" = false := by simpa using hf
          refine absurd h ?_
          simp only [cancelSubscription, hfind, hc, dbWrite, hf',
            Bool.false_eq_true, if_false]
          simp
  · intro fs stripe now userId sid db e h
    rcases hfind : db.subscriptions.find?
        (fun s => s.id == sid && s.userId == userId && s.cancelAtPeriodEnd) with _ | s
    · simp only [reactivateSubscription, hfind]
    · rcases hc : stripe.reactivateSubscription s.stripeSubscriptionId with e' | upd
      · simp only [reactivateSubscription, hfind, hc]
      · by_cases hf : fs.contains "subscription.update" = true
        · simp only [reactivateSubscription, hfind, hc, dbWrite, hf, if_true]
        · have hf' : fs.contains "subscription.update" = false := by simpa using hf
          refine absurd h ?_
          simp only [reactivateSubscription, hfind, hc, dbWrite, hf',
            Bool.false_eq_true, if_false]
          simp
  · intro fs stripe now userId sid pid db e h
    rcases hfind : db.subscriptions.find? (fun s => s.id == sid && s.userId == userId)
      with _ | s
    · simp only [changeSubscription, hfind]
    · rcases hp : db.prices.find? (fun p => p.stripePriceId == pid) with _ | newPrice
      · simp only [changeSubscription, hfind, hp]
      · by_cases hact : newPrice.active = true
        · rcases hc : stripe.updateSubscription s.stripeSubscriptionId pid with e' | upd
          · simp only [changeSubscription, hfind, hp, hact, Bool.not_true,
              Bool.false_eq_true, if_false, hc]
          · by_cases hf : fs.contains "subscription.update" = true
            · simp only [changeSubscription, hfind, hp, hact, Bool.not_true,
                Bool.false_eq_true, if_false, hc, dbWrite, hf, if_true]
            · have hf' : fs.contains "subscription.update" = false := by simpa using hf
              refine absurd h ?_
              simp only [changeSubscription, hfind, hp, hact, Bool.not_true,
                Bool.false_eq_true, if_false, hc, dbWrite, hf']
              simp
        · have hact' : newPrice.active = false := by simpa using hact
          simp only [changeSubscription, hfind, hp, hact', Bool.not_false, if_true]
  · intro fs stripe now userId dto db
    rcases hu : db.users.find? (fun u => u.id == userId) with _ | user
    · left
      simp only [createCheckoutSession, hu]
    · rcases hcid : user.stripeCustomerId with _ | cid
      · rcases hcc : stripe.createCustomer user.email (checkoutName user) with e' | cid
        · left
          simp only [createCheckoutSession, hu, hcid, hcc]
        · by_cases hfu : fs.contains "user.update" = true
          · left
            simp only [createCheckoutSession, hu, hcid, hcc, dbWrite, hfu, if_true]
          · have hfu' : fs.contains "user.update" = false := by simpa using hfu
            right
            refine ⟨cid, ?_⟩
            simp only [createCheckoutSession, hu, hcid, hcc, dbWrite, hfu',
              Bool.false_eq_true, if_false]
            repeat' split
            all_goals rfl
      · left
        simp only [createCheckoutSession, hu, hcid]
        repeat' split
        all_goals rfl

/-- The user `u1` with no customer linkage yet, in an otherwise empty store
with no prices. -/
def userC2 : User := { userC3 with stripeCustomerId := none }

def dbC2 : DB := ⟨[userC2], [], [], [], [], []⟩

/-- A checkout request for a price the store does not know. -/
def dtoC2 : CreateCheckoutSessionDto :=
  ⟨"price_missing", "https://ok", "https://cancel", none, []⟩

/-- C2 counterexample: `createCheckoutSession` for a user without a linkage
and an unknown price returns the invalid-price error, yet the store has
changed — the freshly created customer id was committed onto the user
before the price validation failed. -/
theorem C2_counterexample_checkout_partial_write :
    (createCheckoutSession [] stripeOk 9 "u1" dtoC2 dbC2).2 =
      .error (.badRequest "Invalid or inactive price")
    ∧ (createCheckoutSession [] stripeOk 9 "u1" dtoC2 dbC2).1 ≠ dbC2 := by
  decide

/-- C2 witness: each action evaluated at a concrete erroring input leaves
the store unchanged, and checkout commits at most the linkage write. -/
theorem C2_error_leaves_state_unchanged_witness :
    (createPortalSession stripeOk "https://app" "u_none" dbC2).1 = dbC2
    ∧ (cancelSubscription [] stripeOk 9 "u1" "nope" false dbC2).1 = dbC2
    ∧ (reactivateSubscription [] stripeOk 9 "u1" "nope" dbC2).1 = dbC2
    ∧ (changeSubscription [] stripeOk 9 "u1" "nope" "price_missing" dbC2).1 = dbC2
    ∧ ((createCheckoutSession [] stripeOk 9 "u1" dtoC2 dbC2).1 = dbC2
        ∨ ∃ cid, (createCheckoutSession [] stripeOk 9 "u1" dtoC2 dbC2).1 =
            { dbC2 with users :=
                          updateManyBy (fun u => u.id == "u1")
                            (fun u => { u with stripeCustomerId := some cid
                                               updatedAt := 9 })
                            dbC2.users }) :=
  ⟨C2_error_leaves_state_unchanged.1 stripeOk "https://app" "u_none" dbC2,
   C2_error_leaves_state_unchanged.2.1 [] stripeOk 9 "u1" "nope" false dbC2
     (.notFound "Subscription not found") (by decide),
   C2_error_leaves_state_unchanged.2.2.1 [] stripeOk 9 "u1" "nope" dbC2
     (.notFound "Subscription not found or not eligible for reactivation") (by decide),
   C2_error_leaves_state_unchanged.2.2.2.1 [] stripeOk 9 "u1" "nope" "price_missing" dbC2
     (.notFound "Subscription not found") (by decide),
   C2_error_leaves_state_unchanged.2.2.2.2 [] stripeOk 9 "u1" dtoC2 dbC2⟩
